import Mathlib

/-!
Verification development for the plant-identification service
(`src/app/api/identify/route.ts` and `src/app/api/images/route.ts`).

The TypeScript route handlers are shallowly embedded as executable Lean
functions.  JavaScript strings are modelled as Lean `String` (lists of
characters); JavaScript numbers reached by the embedded code paths are
modelled as `Rat` (all numbers produced by `JSON.parse` are finite
decimals); `undefined` is modelled with `Option`; a thrown exception is
modelled by `Option`/`Except` results.  Wall-clock metadata
(`analysisTimestamp`, `responseTime`) is provenance only and is not
modelled.  Upstream HTTP traffic is modelled by an oracle assigning to
each outbound fetch (in order) either a parsed success body or a failure
status code; error-response bodies are taken to be empty, as the claims
under study only distinguish status codes.
-/

/-! ### Character and string helpers (JavaScript primitives) -/

def quoteC : Char := Char.ofNat 34

def aposC : Char := Char.ofNat 39

def btickC : Char := Char.ofNat 96

def braceOpenC : Char := Char.ofNat 123

def braceCloseC : Char := Char.ofNat 125

def backslashC : Char := '\\'

/-- The whitespace class of the JavaScript regex class backslash-s and
of `String.prototype.trim`: ASCII whitespace plus the Unicode space
separators (U+00A0, U+1680, U+2000-U+200A, U+202F, U+205F, U+3000), the
line separators U+2028/U+2029, and the BOM U+FEFF. -/
def isJsWs (c : Char) : Bool :=
  c = ' ' ∨ c = Char.ofNat 9 ∨ c = Char.ofNat 10 ∨ c = Char.ofNat 13 ∨
  c = Char.ofNat 11 ∨ c = Char.ofNat 12 ∨ c = Char.ofNat 160 ∨
  c = Char.ofNat 5760 ∨ (8192 ≤ c.toNat ∧ c.toNat ≤ 8202) ∨
  c = Char.ofNat 8232 ∨ c = Char.ofNat 8233 ∨ c = Char.ofNat 8239 ∨
  c = Char.ofNat 8287 ∨ c = Char.ofNat 12288 ∨ c = Char.ofNat 65279

/-- `String.prototype.trim`, on character lists. -/
def jsTrimL (cs : List Char) : List Char :=
  ((cs.dropWhile isJsWs).reverse.dropWhile isJsWs).reverse

def jsTrim (s : String) : String := String.mk (jsTrimL s.data)

/-- Does `pat` occur as a prefix of `cs`? -/
def listStartsWith : List Char → List Char → Bool
  | _, [] => true
  | [], _ :: _ => false
  | c :: cs, p :: ps => c = p && listStartsWith cs ps

/-- If `pat` is a prefix of `cs`, drop it. -/
def dropLit (cs pat : List Char) : Option (List Char) :=
  if listStartsWith cs pat then some (cs.drop pat.length) else none

/-- Does `pat` occur as a substring of `cs`?  Embeds
`String.prototype.includes`. -/
def containsSub (cs pat : List Char) : Bool :=
  match cs with
  | [] => listStartsWith [] pat
  | _ :: rest => listStartsWith cs pat || containsSub rest pat

def strContains (s pat : String) : Bool := containsSub s.data pat.data

/-- ASCII case folding; embeds `String.prototype.toLowerCase` for the
ASCII strings handled by this service. -/
def jsToLower (s : String) : String := String.mk (s.data.map Char.toLower)

/-- `String.prototype.split` with a single-character separator. -/
def splitOnCharAux (sep : Char) : List Char → List Char → List (List Char)
  | [], acc => [acc.reverse]
  | c :: rest, acc =>
    if c = sep then acc.reverse :: splitOnCharAux sep rest []
    else splitOnCharAux sep rest (c :: acc)

def jsSplit (s : String) (sep : Char) : List String :=
  (splitOnCharAux sep s.data []).map String.mk

/-- First index at which the character `c` occurs. -/
def firstIdx (cs : List Char) (c : Char) : Option Nat :=
  match cs with
  | [] => none
  | d :: rest =>
    if d = c then some 0 else (firstIdx rest c).map (· + 1)

/-- Last index at which the character `c` occurs. -/
def lastIdx (cs : List Char) (c : Char) : Option Nat :=
  match firstIdx cs.reverse c with
  | some k => some (cs.length - 1 - k)
  | none => none

/-! ### JSON values and `JSON.parse`

The repair pipeline in `parseGeminiJsonResponse` calls the platform
`JSON.parse`.  We embed a strict ECMA-404 parser: double-quoted strings
with the standard escapes, numbers with optional sign / fraction /
exponent (the numeric value is kept exactly as a rational), objects,
arrays, and the three literals.  Objects keep their member list in
source order; property access with duplicate keys takes the last
occurrence, as `JSON.parse` does.  Surrogate-pair combination for
backslash-u escapes is not modelled (each escape yields one char). -/

inductive Json where
  | null
  | bool (b : Bool)
  | num (q : Rat)
  | str (s : String)
  | arr (elems : List Json)
  | obj (members : List (String × Json))

def isJsonWs (c : Char) : Bool :=
  c = ' ' ∨ c = Char.ofNat 9 ∨ c = Char.ofNat 10 ∨ c = Char.ofNat 13

def dropWs (cs : List Char) : List Char := cs.dropWhile isJsonWs

def hexVal (c : Char) : Option Nat :=
  if '0' ≤ c ∧ c ≤ '9' then some (c.toNat - 48)
  else if 'a' ≤ c ∧ c ≤ 'f' then some (c.toNat - 87)
  else if 'A' ≤ c ∧ c ≤ 'F' then some (c.toNat - 55)
  else none

/-- Body of a JSON string, applied after the opening quote; returns the
decoded characters and the input remaining after the closing quote. -/
def parseJStrL : List Char → Option (List Char × List Char)
  | [] => none
  | c :: rest =>
    if c = quoteC then some ([], rest)
    else if c = backslashC then
      match rest with
      | [] => none
      | e :: r2 =>
        if e = quoteC then (parseJStrL r2).map fun p => (quoteC :: p.1, p.2)
        else if e = backslashC then (parseJStrL r2).map fun p => (backslashC :: p.1, p.2)
        else if e = '/' then (parseJStrL r2).map fun p => ('/' :: p.1, p.2)
        else if e = 'b' then (parseJStrL r2).map fun p => (Char.ofNat 8 :: p.1, p.2)
        else if e = 'f' then (parseJStrL r2).map fun p => (Char.ofNat 12 :: p.1, p.2)
        else if e = 'n' then (parseJStrL r2).map fun p => (Char.ofNat 10 :: p.1, p.2)
        else if e = 'r' then (parseJStrL r2).map fun p => (Char.ofNat 13 :: p.1, p.2)
        else if e = 't' then (parseJStrL r2).map fun p => (Char.ofNat 9 :: p.1, p.2)
        else if e = 'u' then
          match r2 with
          | h1 :: h2 :: h3 :: h4 :: r6 =>
            match hexVal h1, hexVal h2, hexVal h3, hexVal h4 with
            | some a, some b, some d, some g =>
              (parseJStrL r6).map fun p =>
                (Char.ofNat (a * 4096 + b * 256 + d * 16 + g) :: p.1, p.2)
            | _, _, _, _ => none
          | _ => none
        else none
    else if c.toNat < 32 then none
    else (parseJStrL rest).map fun p => (c :: p.1, p.2)

def isDigitC (c : Char) : Bool := '0' ≤ c ∧ c ≤ '9'

def digitsToNat (ds : List Char) : Nat :=
  ds.foldl (fun acc d => acc * 10 + (d.toNat - 48)) 0

/-- JSON number grammar: minus? int frac? exp?, with the leading-zero
restriction.  Returns the exact rational value. -/
def parseJNum (cs : List Char) : Option (Rat × List Char) :=
  let (sign, cs1) : Int × List Char :=
    match cs with
    | c :: rest => if c = '-' then (-1, rest) else (1, cs)
    | [] => (1, cs)
  let intDigits := cs1.takeWhile isDigitC
  let cs2 := cs1.drop intDigits.length
  if intDigits = [] then none
  else if 2 ≤ intDigits.length ∧ intDigits.headD ' ' = '0' then none
  else
    let (fracDigits, cs3) : List Char × List Char :=
      match cs2 with
      | c :: rest => if c = '.' then (rest.takeWhile isDigitC, rest.drop (rest.takeWhile isDigitC).length) else ([], cs2)
      | [] => ([], cs2)
    if cs2 ≠ [] ∧ cs2.headD ' ' = '.' ∧ fracDigits = [] then none
    else
      let (expOk, expVal, cs4) : Bool × Int × List Char :=
        match cs3 with
        | c :: rest =>
          if c = 'e' ∨ c = 'E' then
            let (esign, r2) : Int × List Char :=
              match rest with
              | d :: r3 => if d = '-' then (-1, r3) else if d = '+' then (1, r3) else (1, rest)
              | [] => (1, rest)
            let eds := r2.takeWhile isDigitC
            if eds = [] then (false, 0, cs3)
            else (true, esign * (digitsToNat eds : Int), r2.drop eds.length)
          else (true, 0, cs3)
        | [] => (true, 0, cs3)
      if expOk = false then none
      else
        let mant : Int := sign * (digitsToNat (intDigits ++ fracDigits) : Int)
        some ((mant : Rat) * (10 : Rat) ^ (expVal - (fracDigits.length : Int)), cs4)

mutual

/-- One JSON value; `fuel` bounds the recursion depth (the wrapper passes
more fuel than any input can consume). -/
def parseJVal : Nat → List Char → Option (Json × List Char)
  | 0, _ => none
  | fuel + 1, cs =>
    match cs with
    | [] => none
    | c :: rest =>
      if c = quoteC then
        (parseJStrL rest).map fun p => (Json.str (String.mk p.1), p.2)
      else if c = braceOpenC then parseJObj fuel (dropWs rest)
      else if c = '[' then parseJArr fuel (dropWs rest)
      else if c = 't' then (dropLit cs ['t', 'r', 'u', 'e']).map fun r => (Json.bool true, r)
      else if c = 'f' then (dropLit cs ['f', 'a', 'l', 's', 'e']).map fun r => (Json.bool false, r)
      else if c = 'n' then (dropLit cs ['n', 'u', 'l', 'l']).map fun r => (Json.null, r)
      else if c = '-' ∨ isDigitC c then (parseJNum cs).map fun p => (Json.num p.1, p.2)
      else none

/-- Object body, applied after the opening brace with whitespace
skipped. -/
def parseJObj : Nat → List Char → Option (Json × List Char)
  | 0, _ => none
  | fuel + 1, cs =>
    match cs with
    | [] => none
    | c :: rest =>
      if c = braceCloseC then some (Json.obj [], rest)
      else parseJMembers fuel cs []

/-- One or more object members separated by commas. -/
def parseJMembers : Nat → List Char → List (String × Json) → Option (Json × List Char)
  | 0, _, _ => none
  | fuel + 1, cs, acc =>
    match cs with
    | [] => none
    | c :: rest =>
      if c = quoteC then
        match parseJStrL rest with
        | none => none
        | some (k, r1) =>
          match dropWs r1 with
          | [] => none
          | c2 :: r3 =>
            if c2 = ':' then
              match parseJVal fuel (dropWs r3) with
              | none => none
              | some (v, r4) =>
                match dropWs r4 with
                | [] => none
                | c3 :: r6 =>
                  if c3 = ',' then parseJMembers fuel (dropWs r6) (acc ++ [(String.mk k, v)])
                  else if c3 = braceCloseC then some (Json.obj (acc ++ [(String.mk k, v)]), r6)
                  else none
            else none
      else none

/-- Array body, applied after the opening bracket with whitespace
skipped. -/
def parseJArr : Nat → List Char → Option (Json × List Char)
  | 0, _ => none
  | fuel + 1, cs =>
    match cs with
    | [] => none
    | c :: rest =>
      if c = ']' then some (Json.arr [], rest)
      else parseJItems fuel cs []

/-- One or more array items separated by commas. -/
def parseJItems : Nat → List Char → List Json → Option (Json × List Char)
  | 0, _, _ => none
  | fuel + 1, cs, acc =>
    match parseJVal fuel cs with
    | none => none
    | some (v, r1) =>
      match dropWs r1 with
      | [] => none
      | c2 :: r3 =>
        if c2 = ',' then parseJItems fuel (dropWs r3) (acc ++ [v])
        else if c2 = ']' then some (Json.arr (acc ++ [v]), r3)
        else none

end

/-- `JSON.parse`: parse a complete document, allowing only JSON
whitespace around it; any other leftover input is a syntax error. -/
def jsonParse (s : String) : Option Json :=
  match parseJVal (2 * s.data.length + 4) (dropWs s.data) with
  | some (j, rest) => if dropWs rest = [] then some j else none
  | none => none

/-- Property access on a `JSON.parse` result: with duplicate keys the
last occurrence wins. -/
def lookupLast (ms : List (String × Json)) (k : String) : Option Json :=
  ms.foldl (fun acc kv => if kv.1 = k then some kv.2 else acc) none

/-! ### Data model (`route.ts` interfaces) -/

structure PlantCareRequirements where
  watering : String
  sunlight : String
  soil : String
  temperature : String
  humidity : String
  fertilizing : String

structure GrowthCharacteristics where
  size : String
  growthRate : String
  lifespan : String

/-- The fully validated output record (`PlantInfo` in `route.ts`).
Wall-clock metadata fields are omitted; `modelUsed` is kept. -/
structure PlantInfo where
  commonName : String
  scientificName : String
  family : String
  nativeRegion : String
  careRequirements : PlantCareRequirements
  growthCharacteristics : GrowthCharacteristics
  interestingFacts : List String
  warnings : List String
  identificationConfidence : String
  similarPlants : List String
  imageSearchTerms : List String
  imageCount : Rat
  modelUsed : Option String

/-- `Partial<PlantInfo>`: the sparse record produced by
`parseGeminiJsonResponse` or `extractPlantInfoFromText`. -/
structure PartialPlantInfo where
  commonName : Option String := none
  scientificName : Option String := none
  family : Option String := none
  nativeRegion : Option String := none
  careRequirements : Option PlantCareRequirements := none
  growthCharacteristics : Option GrowthCharacteristics := none
  interestingFacts : Option (List String) := none
  warnings : Option (List String) := none
  identificationConfidence : Option String := none
  similarPlants : Option (List String) := none
  imageSearchTerms : Option (List String) := none
  imageCount : Option Rat := none

/-! ### The textual repair steps of `parseGeminiJsonResponse` -/

/-- `text.match` with the regex brace, any chars, brace (greedy): the
substring from the first opening brace to the last closing brace,
provided some closing brace follows the first opening brace. -/
def braceMatch (s : String) : Option String :=
  match firstIdx s.data braceOpenC, lastIdx s.data braceCloseC with
  | some i, some j =>
    if i < j then some (String.mk ((s.data.drop i).take (j - i + 1))) else none
  | _, _ => none

def fenceJsonPat : List Char := [btickC, btickC, btickC, 'j', 's', 'o', 'n']

def fencePat : List Char := [btickC, btickC, btickC]

/-- `.replace` with the global regex alternation of a json code fence or
a bare code fence, replaced by the empty string: left-to-right scan, the
longer alternative tried first at each position. -/
def stripFencesF : Nat → List Char → List Char
  | 0, cs => cs
  | fuel + 1, cs =>
    match cs with
    | [] => []
    | c :: rest =>
      if listStartsWith cs fenceJsonPat then stripFencesF fuel (cs.drop 7)
      else if listStartsWith cs fencePat then stripFencesF fuel (cs.drop 3)
      else c :: stripFencesF fuel rest

def stripFences (s : String) : String := String.mk (stripFencesF s.data.length s.data)

/-- `.replace` with the global regex comma, whitespace star, `close`,
replaced by `close`: left-to-right scan, continuing after each
replacement. -/
def rmCommaCloseF (close : Char) : Nat → List Char → List Char
  | 0, cs => cs
  | fuel + 1, cs =>
    match cs with
    | [] => []
    | c :: rest =>
      if c = ',' then
        match (rest.dropWhile isJsWs) with
        | r :: rs =>
          if r = close then close :: rmCommaCloseF close fuel rs
          else c :: rmCommaCloseF close fuel rest
        | [] => c :: rmCommaCloseF close fuel rest
      else c :: rmCommaCloseF close fuel rest

def rmCommaBrace (s : String) : String :=
  String.mk (rmCommaCloseF braceCloseC s.data.length s.data)

def rmCommaBracket (s : String) : String :=
  String.mk (rmCommaCloseF ']' s.data.length s.data)

/-! ### Field extraction from the parsed value
(lines 502-555 of `route.ts`) -/

def strOr (g : List (String × Json)) (k : String) : String :=
  match lookupLast g k with
  | some (Json.str s) => s
  | _ => ""

def onlyStrings (xs : List Json) : List String :=
  xs.filterMap fun x => match x with | Json.str s => some s | _ => none

/-- The field-by-field validation of the `JSON.parse` result inside
`parseGeminiJsonResponse`.  A non-object member for `careRequirements` or
`growthCharacteristics` that is an array passes the JavaScript
`typeof === object` test and yields all-empty sub-fields. -/
def extractFields (j : Json) : PartialPlantInfo :=
  match j with
  | Json.obj ms =>
    { commonName :=
        match lookupLast ms "commonName" with
        | some (Json.str s) => some s
        | _ => none
      scientificName :=
        match lookupLast ms "scientificName" with
        | some (Json.str s) => some s
        | _ => none
      family :=
        match lookupLast ms "family" with
        | some (Json.str s) => some s
        | _ => none
      nativeRegion :=
        match lookupLast ms "nativeRegion" with
        | some (Json.str s) => some s
        | _ => none
      careRequirements :=
        match lookupLast ms "careRequirements" with
        | some (Json.obj g) =>
          some ⟨strOr g "watering", strOr g "sunlight", strOr g "soil",
                strOr g "temperature", strOr g "humidity", strOr g "fertilizing"⟩
        | some (Json.arr _) => some ⟨"", "", "", "", "", ""⟩
        | _ => none
      growthCharacteristics :=
        match lookupLast ms "growthCharacteristics" with
        | some (Json.obj g) =>
          some ⟨strOr g "size", strOr g "growthRate", strOr g "lifespan"⟩
        | some (Json.arr _) => some ⟨"", "", ""⟩
        | _ => none
      interestingFacts :=
        match lookupLast ms "interestingFacts" with
        | some (Json.arr xs) => some (onlyStrings xs)
        | _ => none
      warnings :=
        match lookupLast ms "warnings" with
        | some (Json.arr xs) => some (onlyStrings xs)
        | _ => none
      identificationConfidence :=
        match lookupLast ms "identificationConfidence" with
        | some (Json.str s) =>
          if s = "High" ∨ s = "Medium" ∨ s = "Low" then some s else none
        | _ => none
      similarPlants :=
        match lookupLast ms "similarPlants" with
        | some (Json.arr xs) => some (onlyStrings xs)
        | _ => none
      imageSearchTerms :=
        match lookupLast ms "imageSearchTerms" with
        | some (Json.arr xs) => some (onlyStrings xs)
        | _ => none
      imageCount :=
        match lookupLast ms "imageCount" with
        | some (Json.num q) => some q
        | _ => none }
  | _ => {}

/-- `parseGeminiJsonResponse` (`route.ts` lines 484-559).  `none` models
a thrown exception (either no brace-delimited JSON found, or a
`JSON.parse` failure). -/
def parseGeminiJsonResponse (text : String) : Option PartialPlantInfo :=
  match braceMatch text with
  | none => none
  | some m =>
    let cleanText := jsTrim (rmCommaBracket (rmCommaBrace (stripFences m)))
    match jsonParse cleanText with
    | some j => some (extractFields j)
    | none => none

/-! ### Regex field-extraction fallback (`extractPlantInfoFromText`,
`route.ts` lines 562-578).  Each JavaScript regex is embedded as a
leftmost-match scanner with the backtracking behaviour of the original
pattern. -/

/-- Try the pattern quote key quote, whitespace star, colon, whitespace
star, quote, one-or-more non-quote chars, quote — at the head of `cs`. -/
def tryQuotedAt (cs key : List Char) : Option (List Char) :=
  match dropLit cs (quoteC :: key ++ [quoteC]) with
  | none => none
  | some r1 =>
    match r1.dropWhile isJsWs with
    | c2 :: r3 =>
      if c2 = ':' then
        match r3.dropWhile isJsWs with
        | c4 :: r5 =>
          if c4 = quoteC then
            let v := r5.takeWhile (fun c => c ≠ quoteC)
            let r6 := r5.drop v.length
            if v ≠ [] ∧ r6 ≠ [] then some v else none
          else none
        | [] => none
      else none
    | [] => none

/-- Leftmost match of the quoted-key pattern over the whole text. -/
def scanQuoted (cs key : List Char) : Option (List Char) :=
  match cs with
  | [] => none
  | _ :: rest =>
    match tryQuotedAt cs key with
    | some v => some v
    | none => scanQuoted rest key

/-- Case-insensitive literal prefix (regex `i` flag over ASCII). -/
def listStartsWithCI : List Char → List Char → Bool
  | _, [] => true
  | [], _ :: _ => false
  | c :: cs, p :: ps => c.toLower = p.toLower && listStartsWithCI cs ps

def isColonOrWs (c : Char) : Bool := c = ':' ∨ isJsWs c

/-- Greedy-with-backtracking tail of the prose patterns: after the
literal, the class colon-or-whitespace one-or-more (taking `j` chars),
then a one-or-more capture of non-period chars.  `j` starts at the
maximal run and backs off while no capture is possible. -/
def proseCapture (rest : List Char) : Nat → Option (List Char)
  | 0 => none
  | j + 1 =>
    match rest.drop (j + 1) with
    | c :: tail =>
      if c ≠ '.' then some ((c :: tail).takeWhile (fun d => d ≠ '.'))
      else proseCapture rest j
    | [] => proseCapture rest j

/-- Try the pattern literal (case-insensitive), colon-or-whitespace
one-or-more, capture of non-period chars — at the head of `cs`. -/
def tryProseAt (cs lit : List Char) : Option (List Char) :=
  if listStartsWithCI cs lit then
    let rest := cs.drop lit.length
    let k := (rest.takeWhile isColonOrWs).length
    if k = 0 then none else proseCapture rest k
  else none

def scanProse (cs lit : List Char) : Option (List Char) :=
  match cs with
  | [] => none
  | _ :: rest =>
    match tryProseAt cs lit with
    | some v => some v
    | none => scanProse rest lit

/-- Try the pattern literal `confidence` (case-insensitive),
colon-or-whitespace one-or-more, then the alternation High | Medium |
Low (case-insensitive, capturing the source text) — at position `j`
after the literal, backing off like `proseCapture`. -/
def confCapture (rest : List Char) : Nat → Option (List Char)
  | 0 => none
  | j + 1 =>
    let tail := rest.drop (j + 1)
    if listStartsWithCI tail ['h', 'i', 'g', 'h'] then some (tail.take 4)
    else if listStartsWithCI tail ['m', 'e', 'd', 'i', 'u', 'm'] then some (tail.take 6)
    else if listStartsWithCI tail ['l', 'o', 'w'] then some (tail.take 3)
    else confCapture rest j

def tryConfAt (cs : List Char) : Option (List Char) :=
  if listStartsWithCI cs ['c', 'o', 'n', 'f', 'i', 'd', 'e', 'n', 'c', 'e'] then
    let rest := cs.drop 10
    let k := (rest.takeWhile isColonOrWs).length
    if k = 0 then none else confCapture rest k
  else none

def scanConf (cs : List Char) : Option (List Char) :=
  match cs with
  | [] => none
  | _ :: rest =>
    match tryConfAt cs with
    | some v => some v
    | none => scanConf rest

/-- `extractPlantInfoFromText`: last-resort regex extraction; never
throws, possibly empty result. -/
def extractPlantInfoFromText (text : String) : PartialPlantInfo :=
  let cs := text.data
  let commonNameMatch :=
    match scanQuoted cs ("commonName".data) with
    | some v => some v
    | none => scanProse cs ("common name".data)
  let sciNameMatch :=
    match scanQuoted cs ("scientificName".data) with
    | some v => some v
    | none => scanProse cs ("scientific name".data)
  let confidenceMatch :=
    match scanQuoted cs ("identificationConfidence".data) with
    | some v => some v
    | none => scanConf cs
  { commonName := commonNameMatch.map fun v => jsTrim (String.mk v)
    scientificName := sciNameMatch.map fun v => jsTrim (String.mk v)
    identificationConfidence :=
      match confidenceMatch with
      | some v =>
        let s := String.mk v
        if s = "High" ∨ s = "Medium" ∨ s = "Low" then some s else none
      | none => none }

/-! ### `generateImageSearchTerms` (`route.ts` lines 425-481).
A JavaScript `Set` of strings is an insertion-ordered list without
duplicates. -/

def addTerm (l : List String) (t : String) : List String :=
  if t ∈ l then l else l ++ [t]

/-- The loop body over name parts: parts longer than 3 characters are
added. -/
def addParts (l : List String) (parts : List String) : List String :=
  parts.foldl (fun acc p => if 3 < p.length then addTerm acc p else acc) l

/-- The data-dependent part of the term set (name, scientific-name
parts, family, sunlight context), before the four constant terms. -/
def contextTerms (commonName : String)
    (scientificName family sunlight : Option String) : List String :=
  let t0 : List String := []
  let t1 :=
    if commonName ≠ "" ∧ commonName ≠ "Plant" then
      addParts (addTerm t0 (jsToLower commonName)) (jsSplit (jsToLower commonName) ' ')
    else t0
  let t2 :=
    match scientificName with
    | some s => if s ≠ "" ∧ s ≠ "Unknown species" then addParts t1 (jsSplit (jsToLower s) ' ') else t1
    | none => t1
  let t3 :=
    match family with
    | some f => if f ≠ "" then (if f ≠ "Unknown family" then addTerm t2 (jsToLower f) else t2) else t2
    | none => t2
  let t4 :=
    match sunlight with
    | some u =>
      if u ≠ "" then
        let lu := jsToLower u
        let a := if strContains lu "indoor" then addTerm t3 "indoor plant" else t3
        let b := if strContains lu "outdoor" then addTerm a "outdoor plant" else a
        let c :=
          if strContains lu "succulent" ∨ strContains lu "cactus" then
            addTerm (addTerm b "succulent") "cactus"
          else b
        if strContains lu "tropical" then addTerm c "tropical plant" else c
      else t3
    | none => t3
  t4

def generateImageSearchTerms (commonName : String)
    (scientificName family sunlight : Option String) : List String :=
  let t5 := addTerm (addTerm (addTerm (addTerm
    (contextTerms commonName scientificName family sunlight)
    "plant") "foliage") "greenery") "botanical"
  let result := if t5.length < 3 then t5 ++ ["nature", "garden", "horticulture"] else t5
  result.take 5

/-! ### Schema validation (`validatedPlantInfo`, `route.ts` lines
326-370) -/

/-- JavaScript `x || d` for an optional string: `undefined` and the
empty string are falsy. -/
def orDefault (o : Option String) (d : String) : String :=
  match o with
  | some s => if s = "" then d else s
  | none => d

def defaultFacts : List String :=
  ["Plants help purify indoor air", "Can improve mental well-being", "Convert CO2 to oxygen"]

def defaultWarnings : List String :=
  ["Always verify plant identification", "Wash hands after handling"]

/-- The construction of the validated `PlantInfo` record from the parsed
partial record. -/
def validatedPlantInfo (p : PartialPlantInfo) (modelUsed : String) : PlantInfo :=
  { commonName := orDefault p.commonName "Plant"
    scientificName := orDefault p.scientificName "Unknown species"
    family := orDefault p.family "Unknown family"
    nativeRegion := orDefault p.nativeRegion "Unknown"
    careRequirements :=
      { watering := orDefault (p.careRequirements.map (·.watering)) "Water when top inch of soil is dry"
        sunlight := orDefault (p.careRequirements.map (·.sunlight)) "Bright indirect light"
        soil := orDefault (p.careRequirements.map (·.soil)) "Well-draining potting mix"
        temperature := orDefault (p.careRequirements.map (·.temperature)) "65-80°F (18-27°C)"
        humidity := orDefault (p.careRequirements.map (·.humidity)) "Moderate humidity"
        fertilizing := orDefault (p.careRequirements.map (·.fertilizing)) "Monthly during growing season" }
    growthCharacteristics :=
      { size := orDefault (p.growthCharacteristics.map (·.size)) "Varies by species"
        growthRate := orDefault (p.growthCharacteristics.map (·.growthRate)) "Moderate"
        lifespan := orDefault (p.growthCharacteristics.map (·.lifespan)) "Perennial" }
    interestingFacts :=
      match p.interestingFacts with
      | some l => if 3 ≤ l.length then l else defaultFacts
      | none => defaultFacts
    warnings :=
      match p.warnings with
      | some l => if 0 < l.length then l else defaultWarnings
      | none => defaultWarnings
    identificationConfidence :=
      match p.identificationConfidence with
      | some s => if s = "High" ∨ s = "Medium" ∨ s = "Low" then s else "Medium"
      | none => "Medium"
    similarPlants :=
      match p.similarPlants with
      | some l => if 0 < l.length then l else ["Various ornamental plants"]
      | none => ["Various ornamental plants"]
    imageSearchTerms :=
      match p.imageSearchTerms with
      | some l =>
        if 0 < l.length then l
        else generateImageSearchTerms (orDefault p.commonName "plant")
          p.scientificName p.family (p.careRequirements.map (·.sunlight))
      | none => generateImageSearchTerms (orDefault p.commonName "plant")
          p.scientificName p.family (p.careRequirements.map (·.sunlight))
    imageCount :=
      match p.imageCount with
      | some q => if 0 < q then min (max q 4) 8 else 6
      | none => 6
    modelUsed := some modelUsed }

/-- The parse-then-fallback sequencing in `POST` (lines 310-315): a
throw from `parseGeminiJsonResponse` falls back to
`extractPlantInfoFromText`. -/
def parsePipeline (text : String) : PartialPlantInfo :=
  match parseGeminiJsonResponse text with
  | some r => r
  | none => extractPlantInfoFromText text

/-! ### Inference client with retry/fallback (`callGeminiAPI`,
`route.ts` lines 79-165)

The upstream endpoint is modelled by an oracle `o : Nat → UpstreamResp`
giving the result of the n-th outbound fetch of the request.  A
successful (2xx) fetch carries the parsed `GeminiApiResponse` body.
`route.ts` uses `return callGeminiAPI(...)` without `await` inside both
the `try` block and the `catch` block, so a rejection of a recursive
call propagates directly to the outermost caller and is never re-caught
by an enclosing attempt; the embedding therefore splices the recursive
result through unchanged. -/

structure GeminiPart where
  text : Option String

structure GeminiContent where
  parts : Option (List GeminiPart)

structure GeminiCandidate where
  content : Option GeminiContent

structure GeminiApiResponse where
  candidates : Option (List GeminiCandidate)

inductive UpstreamResp where
  | success (r : GeminiApiResponse)
  | failure (status : Nat)

inductive GemError where
  | overloaded (model : String)
  | notFound (model : String)
  | apiError (status : Nat)

/-- The `Error.message` texts thrown by `callGeminiAPI`.  Error-response
bodies are modelled as empty, so the generic message has no detail
part. -/
def errMessage : GemError → String
  | GemError.overloaded m => "Model " ++ m ++ " is overloaded after 3 retries."
  | GemError.notFound m => "Model " ++ m ++ " not found."
  | GemError.apiError n => "API error " ++ toString n ++ ": "

/-- The retry condition of the `catch` block (lines 152-157): message
contains overloaded, 503 or 429. -/
def retryableMsg (msg : String) : Bool :=
  strContains msg "overloaded" || strContains msg "503" || strContains msg "429"

def maxRetries : Nat := 3

def baseDelay : Nat := 1000

/-- Trace of one `callGeminiAPI` call: outcome, next unconsumed oracle
index, and the backoff sleeps performed (in ms, in order). -/
structure CallTrace where
  out : Except GemError GeminiApiResponse
  next : Nat
  delays : List Nat

/-- Body of `callGeminiAPI`, structurally recursive on `fuel`; the
wrapper maintains `fuel = maxRetries + 1 - retryCount`, which makes the
fuel-0 branch unreachable (every recursive call is guarded by
`retryCount < maxRetries`). -/
def callGeminiAPIFuel (o : Nat → UpstreamResp) (model : String) :
    Nat → Nat → Nat → CallTrace
  | 0, i, _ => ⟨Except.error (GemError.overloaded model), i, []⟩
  | fuel + 1, i, retryCount =>
    match o i with
    | UpstreamResp.success r => ⟨Except.ok r, i + 1, []⟩
    | UpstreamResp.failure status =>
      if status = 503 ∨ status = 429 then
        if retryCount < maxRetries then
          let d := baseDelay * 2 ^ retryCount
          let t := callGeminiAPIFuel o model fuel (i + 1) (retryCount + 1)
          ⟨t.out, t.next, d :: t.delays⟩
        else
          -- thrown, then examined by this call's own catch clause
          let e := GemError.overloaded model
          if retryCount < maxRetries ∧ retryableMsg (errMessage e) then
            let d := baseDelay * 2 ^ retryCount
            let t := callGeminiAPIFuel o model fuel (i + 1) (retryCount + 1)
            ⟨t.out, t.next, d :: t.delays⟩
          else ⟨Except.error e, i + 1, []⟩
      else
        let e := if status = 404 then GemError.notFound model else GemError.apiError status
        if retryCount < maxRetries ∧ retryableMsg (errMessage e) then
          let d := baseDelay * 2 ^ retryCount
          let t := callGeminiAPIFuel o model fuel (i + 1) (retryCount + 1)
          ⟨t.out, t.next, d :: t.delays⟩
        else ⟨Except.error e, i + 1, []⟩

def callGeminiAPI (o : Nat → UpstreamResp) (model : String) (i retryCount : Nat) : CallTrace :=
  callGeminiAPIFuel o model (maxRetries + 1 - retryCount) i retryCount

/-! ### The model-fallback loop of `POST` (lines 241-262) -/

def PRIMARY_MODEL : String := "gemini-2.5-flash"

def FALLBACK_MODELS : List String :=
  ["gemini-1.5-flash", "gemini-1.5-pro", "gemini-1.0-pro"]

def modelsToTry : List String := PRIMARY_MODEL :: FALLBACK_MODELS

/-- Trace of the fallback loop: first successful response with the model
that produced it, next oracle index, all sleeps (backoff and the 500 ms
inter-model delay) in order, and the `lastError` variable. -/
structure LoopTrace where
  result : Option (GeminiApiResponse × String)
  next : Nat
  delays : List Nat
  lastError : Option GemError

def tryModels (o : Nat → UpstreamResp) :
    List String → Nat → Option GemError → LoopTrace
  | [], i, le => ⟨none, i, [], le⟩
  | m :: ms, i, le =>
    let c := callGeminiAPI o m i 0
    match c.out with
    | Except.ok r => ⟨some (r, m), c.next, c.delays, le⟩
    | Except.error e =>
      if strContains (errMessage e) "not found" then
        let rest := tryModels o ms c.next (some e)
        ⟨rest.result, rest.next, c.delays ++ rest.delays, rest.lastError⟩
      else
        let rest := tryModels o ms c.next (some e)
        ⟨rest.result, rest.next, c.delays ++ [500] ++ rest.delays, rest.lastError⟩

/-! ### The response assembly of `POST` (lines 264-381) -/

/-- `data.candidates?.[0]?.content?.parts?.[0]?.text || ""` defaulted to
the empty-object text (line 307): any missing link of the optional
chain, or an empty text, yields the two-character empty-object string. -/
def extractText (r : GeminiApiResponse) : String :=
  match r.candidates with
  | some (c :: _) =>
    match c.content with
    | some ct =>
      match ct.parts with
      | some (p :: _) =>
        match p.text with
        | some t => if t = "" then "\x7b\x7d" else t
        | none => "\x7b\x7d"
      | _ => "\x7b\x7d"
    | none => "\x7b\x7d"
  | _ => "\x7b\x7d"

/-- The placeholder payload returned when every model failed (lines
275-299). -/
def serviceUnavailableData : PlantInfo :=
  { commonName := "Service Unavailable"
    scientificName := "N/A"
    family := "Unknown"
    nativeRegion := "Unknown"
    careRequirements :=
      { watering := "Gemini API is currently overloaded"
        sunlight := "Please try again in a few minutes"
        soil := "The AI service is experiencing high demand"
        temperature := "Temporary service interruption"
        humidity := "Try during off-peak hours"
        fertilizing := "Check back soon" }
    growthCharacteristics := { size := "Unknown", growthRate := "Unknown", lifespan := "Unknown" }
    interestingFacts :=
      ["AI services can experience temporary overload", "Try again in 5-10 minutes",
       "Consider uploading during less busy hours"]
    warnings := ["Service temporarily unavailable"]
    identificationConfidence := "Low"
    similarPlants := ["Unknown"]
    imageSearchTerms := ["plant", "nature", "green"]
    imageCount := 4
    modelUsed := none }

/-- The observable outcome of `POST` from the model loop onward: HTTP
status, `success` flag, `model` envelope field, and `data` payload. -/
structure PostResult where
  status : Nat
  success : Bool
  model : String
  data : PlantInfo

/-- `POST` after ingress validation: run the fallback loop, then either
parse/validate the winning response text (HTTP 200) or produce the
all-models-failed placeholder (HTTP 503). -/
def postOutcome (o : Nat → UpstreamResp) : PostResult :=
  match (tryModels o modelsToTry 0 none).result with
  | some (r, modelUsed) =>
    ⟨200, true, modelUsed, validatedPlantInfo (parsePipeline (extractText r)) modelUsed⟩
  | none => ⟨503, false, "None", serviceUnavailableData⟩

/-! ### Image-search enrichment (`src/app/api/images/route.ts`)

The query parameters are modelled after parsing (`query`, `count`,
`page` as the handler's local variables) and the Unsplash collaborator
by a one-shot fetch outcome. -/

structure UnsplashUrls where
  regular : String
  small : String
  thumb : String

structure UnsplashUser where
  name : String
  username : String

structure UnsplashPhoto where
  id : String
  urls : UnsplashUrls
  alt_description : Option String
  user : UnsplashUser
  linksHtml : String

inductive UnsplashFetch where
  | throws
  | notOk (status : Nat)
  | ok (results : List UnsplashPhoto) (total : Nat) (totalPages : Nat)

structure ImageResult where
  id : String
  urls : UnsplashUrls
  alt_description : String
  userName : String
  userUsername : String
  linksHtml : String

structure ImagesResponse where
  status : Nat
  success : Bool
  query : String
  count : Nat
  page : Option Int
  images : List ImageResult
  note : Option String
  errorMsg : Option String

def hexDigitUpper (n : Nat) : Char :=
  if n < 10 then Char.ofNat (48 + n) else Char.ofNat (55 + n)

/-- UTF-8 bytes of a code point. -/
def utf8Bytes (n : Nat) : List Nat :=
  if n < 128 then [n]
  else if n < 2048 then [192 + n / 64, 128 + n % 64]
  else if n < 65536 then [224 + n / 4096, 128 + (n / 64) % 64, 128 + n % 64]
  else [240 + n / 262144, 128 + (n / 4096) % 64, 128 + (n / 64) % 64, 128 + n % 64]

def pctByte (b : Nat) : List Char :=
  [Char.ofNat 37, hexDigitUpper (b / 16), hexDigitUpper (b % 16)]

/-- The characters `encodeURIComponent` leaves unescaped. -/
def isUriUnreserved (c : Char) : Bool :=
  (('A' ≤ c ∧ c ≤ 'Z') ∨ ('a' ≤ c ∧ c ≤ 'z') ∨ ('0' ≤ c ∧ c ≤ '9')) ∨
  c = '-' ∨ c = '_' ∨ c = '.' ∨ c = '!' ∨ c = '~' ∨ c = '*' ∨ c = aposC ∨
  c = '(' ∨ c = ')'

def encodeURIComponent (s : String) : String :=
  String.mk ((s.data.map fun c =>
    if isUriUnreserved c then [c] else ((utf8Bytes c.toNat).map pctByte).flatten).flatten)

/-- One deterministic placeholder image (lines 17-32), parameterized by
the index and the query. -/
def mockImage (query : String) (i : Nat) : ImageResult :=
  { id := "mock-" ++ toString i
    urls :=
      { regular := "https://picsum.photos/600/400?random=" ++ toString i ++ "&plant=" ++ encodeURIComponent query
        small := "https://picsum.photos/300/200?random=" ++ toString i ++ "&plant=" ++ encodeURIComponent query
        thumb := "https://picsum.photos/150/100?random=" ++ toString i ++ "&plant=" ++ encodeURIComponent query }
    alt_description := query ++ " plant image " ++ toString (i + 1)
    userName := "Botanical Photos"
    userUsername := "botanical"
    linksHtml := "https://unsplash.com" }

def mapUnsplashPhoto (query : String) (p : UnsplashPhoto) : ImageResult :=
  { id := p.id
    urls := p.urls
    alt_description := orDefault p.alt_description (query ++ " plant")
    userName := p.user.name
    userUsername := p.user.username
    linksHtml := p.linksHtml }

/-- The `GET` handler of `images/route.ts`: mock placeholders when no API
key is configured; otherwise map the fetched results, with any throw or
non-OK status caught and turned into an HTTP 500 empty-list response. -/
def imagesGET (query : String) (count page : Int) (apiKey : Option String)
    (fetch : UnsplashFetch) : ImagesResponse :=
  match apiKey with
  | none =>
    let imgs := (List.range (min count 6).toNat).map (mockImage query)
    { status := 200, success := true, query := query, count := imgs.length
      page := some page
      images := imgs
      note := some "Using mock images. Add UNSPLASH_API_KEY to .env.local for real images."
      errorMsg := none }
  | some _ =>
    match fetch with
    | UnsplashFetch.ok results _ _ =>
      { status := 200, success := true, query := query, count := results.length
        page := some page
        images := results.map (mapUnsplashPhoto query), note := none, errorMsg := none }
    | _ =>
      { status := 500, success := false, query := query, count := 0, page := none
        images := [], note := none, errorMsg := some "Failed to fetch images" }

/-! ### Auxiliary lemmas -/

theorem orDefault_ne (o : Option String) (d : String) (hd : d ≠ "") :
    orDefault o d ≠ "" := by
  unfold orDefault
  cases o with
  | none => exact hd
  | some s =>
    by_cases hs : s = "" <;> simp [hs, hd]

theorem callFuel_succ (o : Nat → UpstreamResp) (m : String) (fuel i rc : Nat) :
    callGeminiAPIFuel o m (fuel + 1) i rc =
      match o i with
      | UpstreamResp.success r => ⟨Except.ok r, i + 1, []⟩
      | UpstreamResp.failure status =>
        if status = 503 ∨ status = 429 then
          if rc < maxRetries then
            let d := baseDelay * 2 ^ rc
            let t := callGeminiAPIFuel o m fuel (i + 1) (rc + 1)
            ⟨t.out, t.next, d :: t.delays⟩
          else
            let e := GemError.overloaded m
            if rc < maxRetries ∧ retryableMsg (errMessage e) then
              let d := baseDelay * 2 ^ rc
              let t := callGeminiAPIFuel o m fuel (i + 1) (rc + 1)
              ⟨t.out, t.next, d :: t.delays⟩
            else ⟨Except.error e, i + 1, []⟩
        else
          let e := if status = 404 then GemError.notFound m else GemError.apiError status
          if rc < maxRetries ∧ retryableMsg (errMessage e) then
            let d := baseDelay * 2 ^ rc
            let t := callGeminiAPIFuel o m fuel (i + 1) (rc + 1)
            ⟨t.out, t.next, d :: t.delays⟩
          else ⟨Except.error e, i + 1, []⟩ := rfl

/-- A model that answers 503 on four consecutive fetches is retried
three times with doubling backoff and then reported overloaded. -/
theorem call_overloaded (o : Nat → UpstreamResp) (m : String) (i : Nat)
    (h : ∀ j, j < 4 → o (i + j) = UpstreamResp.failure 503) :
    callGeminiAPI o m i 0 =
      ⟨Except.error (GemError.overloaded m), i + 4, [1000, 2000, 4000]⟩ := by
  have h0 : o i = UpstreamResp.failure 503 := by simpa using h 0 (by omega)
  have h1 : o (i + 1) = UpstreamResp.failure 503 := h 1 (by omega)
  have h2 : o (i + 1 + 1) = UpstreamResp.failure 503 := h 2 (by omega)
  have h3 : o (i + 1 + 1 + 1) = UpstreamResp.failure 503 := h 3 (by omega)
  show callGeminiAPIFuel o m 4 i 0 = _
  rw [show (4 : Nat) = 3 + 1 from rfl, callFuel_succ, h0]
  rw [show (3 : Nat) = 2 + 1 from rfl, callFuel_succ, h1]
  rw [show (2 : Nat) = 1 + 1 from rfl, callFuel_succ, h2]
  rw [show (1 : Nat) = 0 + 1 from rfl, callFuel_succ, h3]
  rfl

theorem tryModels_cons (o : Nat → UpstreamResp) (m : String) (ms : List String)
    (i : Nat) (le : Option GemError) :
    tryModels o (m :: ms) i le =
      match (callGeminiAPI o m i 0).out with
      | Except.ok r =>
        ⟨some (r, m), (callGeminiAPI o m i 0).next, (callGeminiAPI o m i 0).delays, le⟩
      | Except.error e =>
        if strContains (errMessage e) "not found" then
          let rest := tryModels o ms (callGeminiAPI o m i 0).next (some e)
          ⟨rest.result, rest.next, (callGeminiAPI o m i 0).delays ++ rest.delays,
            rest.lastError⟩
        else
          let rest := tryModels o ms (callGeminiAPI o m i 0).next (some e)
          ⟨rest.result, rest.next,
            (callGeminiAPI o m i 0).delays ++ [500] ++ rest.delays, rest.lastError⟩ := rfl

theorem mem_addTerm_self (l : List String) (t : String) : t ∈ addTerm l t := by
  unfold addTerm
  by_cases h : t ∈ l <;> simp [h]

theorem mem_addTerm_of_mem (l : List String) (t a : String) (h : a ∈ l) :
    a ∈ addTerm l t := by
  unfold addTerm
  by_cases ht : t ∈ l <;> simp [ht, h]

/-- The four constant terms are always present before truncation. -/
theorem four_le_constTerms (l : List String) :
    4 ≤ (addTerm (addTerm (addTerm (addTerm l "plant") "foliage") "greenery")
      "botanical").length := by
  have sub : ["plant", "foliage", "greenery", "botanical"] ⊆
      addTerm (addTerm (addTerm (addTerm l "plant") "foliage") "greenery") "botanical" := by
    intro a ha
    simp only [List.mem_cons, List.not_mem_nil, or_false] at ha
    rcases ha with h | h | h | h
    · subst h
      exact mem_addTerm_of_mem _ _ _ (mem_addTerm_of_mem _ _ _
        (mem_addTerm_of_mem _ _ _ (mem_addTerm_self _ _)))
    · subst h
      exact mem_addTerm_of_mem _ _ _ (mem_addTerm_of_mem _ _ _ (mem_addTerm_self _ _))
    · subst h
      exact mem_addTerm_of_mem _ _ _ (mem_addTerm_self _ _)
    · subst h
      exact mem_addTerm_self _ _
  have nd : (["plant", "foliage", "greenery", "botanical"] : List String).Nodup := by decide
  have := (nd.subperm sub).length_le
  simpa using this

/-- Derived search terms always number between 3 and 5 (in fact between
4 and 5). -/
theorem generateImageSearchTerms_length (commonName : String)
    (scientificName family sunlight : Option String) :
    3 ≤ (generateImageSearchTerms commonName scientificName family sunlight).length ∧
    (generateImageSearchTerms commonName scientificName family sunlight).length ≤ 5 := by
  unfold generateImageSearchTerms
  generalize contextTerms commonName scientificName family sunlight = l
  have h4 := four_le_constTerms l
  simp only [List.length_take]
  rw [if_neg (by omega)]
  constructor <;> omega

/-! ### Claim theorems -/

/-- C1: for every sparse partial record reaching the schema validation
stage, including the empty record, the resulting PlantRecord is fully
populated: the four top-level string fields and every sub-field of
careRequirements and growthCharacteristics are non-empty strings,
interestingFacts has at least 3 entries, warnings and similarPlants at
least 1 each, and identificationConfidence is High, Medium or Low.  The
stage is a total function, so it never fails. -/
theorem C1_total_defaulting (p : PartialPlantInfo) (m : String) :
    (validatedPlantInfo p m).commonName ≠ "" ∧
    (validatedPlantInfo p m).scientificName ≠ "" ∧
    (validatedPlantInfo p m).family ≠ "" ∧
    (validatedPlantInfo p m).nativeRegion ≠ "" ∧
    (validatedPlantInfo p m).careRequirements.watering ≠ "" ∧
    (validatedPlantInfo p m).careRequirements.sunlight ≠ "" ∧
    (validatedPlantInfo p m).careRequirements.soil ≠ "" ∧
    (validatedPlantInfo p m).careRequirements.temperature ≠ "" ∧
    (validatedPlantInfo p m).careRequirements.humidity ≠ "" ∧
    (validatedPlantInfo p m).careRequirements.fertilizing ≠ "" ∧
    (validatedPlantInfo p m).growthCharacteristics.size ≠ "" ∧
    (validatedPlantInfo p m).growthCharacteristics.growthRate ≠ "" ∧
    (validatedPlantInfo p m).growthCharacteristics.lifespan ≠ "" ∧
    3 ≤ (validatedPlantInfo p m).interestingFacts.length ∧
    1 ≤ (validatedPlantInfo p m).warnings.length ∧
    1 ≤ (validatedPlantInfo p m).similarPlants.length ∧
    (validatedPlantInfo p m).identificationConfidence ∈ ["High", "Medium", "Low"] := by
  refine ⟨?_, ?_, ?_, ?_, ?_, ?_, ?_, ?_, ?_, ?_, ?_, ?_, ?_, ?_, ?_, ?_, ?_⟩
  case _ => exact orDefault_ne _ _ (by decide)
  case _ => exact orDefault_ne _ _ (by decide)
  case _ => exact orDefault_ne _ _ (by decide)
  case _ => exact orDefault_ne _ _ (by decide)
  case _ => exact orDefault_ne _ _ (by decide)
  case _ => exact orDefault_ne _ _ (by decide)
  case _ => exact orDefault_ne _ _ (by decide)
  case _ => exact orDefault_ne _ _ (by decide)
  case _ => exact orDefault_ne _ _ (by decide)
  case _ => exact orDefault_ne _ _ (by decide)
  case _ => exact orDefault_ne _ _ (by decide)
  case _ => exact orDefault_ne _ _ (by decide)
  case _ => exact orDefault_ne _ _ (by decide)
  case _ =>
    show 3 ≤ (match p.interestingFacts with
      | some l => if 3 ≤ l.length then l else defaultFacts
      | none => defaultFacts).length
    cases hF : p.interestingFacts with
    | none => simp [defaultFacts]
    | some l =>
      by_cases h3 : 3 ≤ l.length <;> simp [h3, defaultFacts]
  case _ =>
    show 1 ≤ (match p.warnings with
      | some l => if 0 < l.length then l else defaultWarnings
      | none => defaultWarnings).length
    cases hW : p.warnings with
    | none => simp [defaultWarnings]
    | some l =>
      by_cases h1 : 0 < l.length
      · simp [h1]
        omega
      · simp [h1, defaultWarnings]
  case _ =>
    show 1 ≤ (match p.similarPlants with
      | some l => if 0 < l.length then l else ["Various ornamental plants"]
      | none => ["Various ornamental plants"]).length
    cases hS : p.similarPlants with
    | none => simp
    | some l =>
      by_cases h1 : 0 < l.length
      · simp [h1]
        omega
      · simp [h1]
  case _ =>
    show (match p.identificationConfidence with
      | some s => if s = "High" ∨ s = "Medium" ∨ s = "Low" then s else "Medium"
      | none => "Medium") ∈ ["High", "Medium", "Low"]
    cases hC : p.identificationConfidence with
    | none => simp
    | some s =>
      by_cases hs : s = "High" ∨ s = "Medium" ∨ s = "Low"
      · rcases hs with h | h | h <;> simp [h]
      · simp [hs]

/-- C2: when a model answers 503 on four consecutive fetches, the client
retries that same model exactly 3 times with backoff delays 1000 ms,
2000 ms, 4000 ms, makes no further fetch to it (exactly oracle indices
0-3 are consumed), and the fallback loop then advances to the next model
in the list (after the loop's fixed 500 ms inter-model delay). -/
theorem C2_retry_backoff (o : Nat → UpstreamResp)
    (h : ∀ i, i < 4 → o i = UpstreamResp.failure 503) :
    callGeminiAPI o PRIMARY_MODEL 0 0 =
      ⟨Except.error (GemError.overloaded PRIMARY_MODEL), 4, [1000, 2000, 4000]⟩ ∧
    tryModels o modelsToTry 0 none =
      ⟨(tryModels o FALLBACK_MODELS 4 (some (GemError.overloaded PRIMARY_MODEL))).result,
       (tryModels o FALLBACK_MODELS 4 (some (GemError.overloaded PRIMARY_MODEL))).next,
       [1000, 2000, 4000, 500] ++
         (tryModels o FALLBACK_MODELS 4 (some (GemError.overloaded PRIMARY_MODEL))).delays,
       (tryModels o FALLBACK_MODELS 4 (some (GemError.overloaded PRIMARY_MODEL))).lastError⟩ := by
  have c1 : callGeminiAPI o PRIMARY_MODEL 0 0 =
      ⟨Except.error (GemError.overloaded PRIMARY_MODEL), 4, [1000, 2000, 4000]⟩ := by
    simpa using call_overloaded o PRIMARY_MODEL 0 (fun j hj => by simpa using h j (by omega))
  refine ⟨c1, ?_⟩
  show tryModels o (PRIMARY_MODEL :: FALLBACK_MODELS) 0 none = _
  rw [tryModels_cons, c1]
  norm_num [PRIMARY_MODEL]
  rfl

/-- Closed instance of C2 at a concrete oracle. -/
theorem C2_retry_backoff_witness :
    callGeminiAPI
        (fun j => if j < 4 then UpstreamResp.failure 503 else UpstreamResp.success ⟨none⟩)
        PRIMARY_MODEL 0 0 =
      ⟨Except.error (GemError.overloaded PRIMARY_MODEL), 4, [1000, 2000, 4000]⟩ :=
  (C2_retry_backoff _ (fun i hi => by simp [hi])).1

/-- C6: when every model in the fallback list exhausts its retries on
503 responses (16 consecutive 503 fetches), the POST handler returns
HTTP 503 with success false and a fully-shaped placeholder PlantRecord
whose commonName is Service Unavailable. -/
theorem C6_all_models_exhausted (o : Nat → UpstreamResp)
    (ho : ∀ i, i < 16 → o i = UpstreamResp.failure 503) :
    postOutcome o = ⟨503, false, "None", serviceUnavailableData⟩ ∧
    serviceUnavailableData.commonName = "Service Unavailable" := by
  have c1 := call_overloaded o "gemini-2.5-flash" 0 (fun j hj => by simpa using ho j (by omega))
  have c2 := call_overloaded o "gemini-1.5-flash" 4 (fun j hj => ho (4 + j) (by omega))
  have c3 := call_overloaded o "gemini-1.5-pro" 8 (fun j hj => ho (8 + j) (by omega))
  have c4 := call_overloaded o "gemini-1.0-pro" 12 (fun j hj => ho (12 + j) (by omega))
  have t : tryModels o modelsToTry 0 none =
      ⟨none, 16, [1000, 2000, 4000, 500, 1000, 2000, 4000, 500, 1000, 2000, 4000, 500,
        1000, 2000, 4000, 500], some (GemError.overloaded "gemini-1.0-pro")⟩ := by
    show tryModels o ("gemini-2.5-flash" ::
      ["gemini-1.5-flash", "gemini-1.5-pro", "gemini-1.0-pro"]) 0 none = _
    rw [tryModels_cons, c1]
    norm_num
    rw [tryModels_cons, c2]
    norm_num
    rw [tryModels_cons, c3]
    norm_num
    rw [tryModels_cons, c4]
    rfl
  unfold postOutcome
  rw [t]
  exact ⟨rfl, rfl⟩

/-- Closed instance of C6 at the always-503 oracle. -/
theorem C6_all_models_exhausted_witness :
    postOutcome (fun _ => UpstreamResp.failure 503) =
      ⟨503, false, "None", serviceUnavailableData⟩ :=
  (C6_all_models_exhausted _ (fun _ _ => rfl)).1

/-- C7: given the simulated upstream sequence 404, 404, 200, the client
tries exactly two models (one fetch each, advancing immediately with no
sleep of any kind) before succeeding on the third model. -/
theorem C7_fallback_ordering (o : Nat → UpstreamResp) (r : GeminiApiResponse)
    (h0 : o 0 = UpstreamResp.failure 404) (h1 : o 1 = UpstreamResp.failure 404)
    (h2 : o 2 = UpstreamResp.success r) :
    tryModels o modelsToTry 0 none =
      ⟨some (r, "gemini-1.5-pro"), 3, [], some (GemError.notFound "gemini-1.5-flash")⟩ := by
  have c1 : callGeminiAPI o "gemini-2.5-flash" 0 0 =
      ⟨Except.error (GemError.notFound "gemini-2.5-flash"), 1, []⟩ := by
    show callGeminiAPIFuel o _ 4 0 0 = _
    rw [show (4 : Nat) = 3 + 1 from rfl, callFuel_succ, h0]
    rfl
  have c2 : callGeminiAPI o "gemini-1.5-flash" 1 0 =
      ⟨Except.error (GemError.notFound "gemini-1.5-flash"), 2, []⟩ := by
    show callGeminiAPIFuel o _ 4 1 0 = _
    rw [show (4 : Nat) = 3 + 1 from rfl, callFuel_succ, h1]
    rfl
  have c3 : callGeminiAPI o "gemini-1.5-pro" 2 0 = ⟨Except.ok r, 3, []⟩ := by
    show callGeminiAPIFuel o _ 4 2 0 = _
    rw [show (4 : Nat) = 3 + 1 from rfl, callFuel_succ, h2]
  show tryModels o ("gemini-2.5-flash" ::
    ["gemini-1.5-flash", "gemini-1.5-pro", "gemini-1.0-pro"]) 0 none = _
  rw [tryModels_cons, c1]
  norm_num
  rw [tryModels_cons, c2]
  norm_num
  rw [tryModels_cons, c3]
  rfl

/-- Closed instance of C7 at a concrete oracle. -/
theorem C7_fallback_ordering_witness :
    tryModels
        (fun j => if j = 2 then UpstreamResp.success ⟨none⟩ else UpstreamResp.failure 404)
        modelsToTry 0 none =
      ⟨some (⟨none⟩, "gemini-1.5-pro"), 3, [],
        some (GemError.notFound "gemini-1.5-flash")⟩ :=
  C7_fallback_ordering _ ⟨none⟩ rfl rfl rfl

/-- The fully-defaulted record produced for an empty parse result. -/
def defaultPlantRecord (modelUsed : String) : PlantInfo :=
  { commonName := "Plant"
    scientificName := "Unknown species"
    family := "Unknown family"
    nativeRegion := "Unknown"
    careRequirements :=
      ⟨"Water when top inch of soil is dry", "Bright indirect light",
       "Well-draining potting mix", "65-80°F (18-27°C)", "Moderate humidity",
       "Monthly during growing season"⟩
    growthCharacteristics := ⟨"Varies by species", "Moderate", "Perennial"⟩
    interestingFacts := defaultFacts
    warnings := defaultWarnings
    identificationConfidence := "Medium"
    similarPlants := ["Various ornamental plants"]
    imageSearchTerms := ["plant", "foliage", "greenery", "botanical"]
    imageCount := 6
    modelUsed := some modelUsed }

/-- C10: if the first fetch succeeds but the response carries no
candidate text (the extracted text falls back to the empty-object
string), POST returns HTTP 200 with success true and the data record is
entirely the documented defaults: commonName Plant, scientificName
Unknown species, identificationConfidence Medium, imageCount 6, and the
deterministically derived image search terms. -/
theorem C10_defaults_on_empty_candidates (o : Nat → UpstreamResp)
    (r : GeminiApiResponse) (h0 : o 0 = UpstreamResp.success r)
    (ht : extractText r = "\x7b\x7d") :
    postOutcome o = ⟨200, true, PRIMARY_MODEL, defaultPlantRecord PRIMARY_MODEL⟩ := by
  have c1 : callGeminiAPI o "gemini-2.5-flash" 0 0 = ⟨Except.ok r, 1, []⟩ := by
    show callGeminiAPIFuel o _ 4 0 0 = _
    rw [show (4 : Nat) = 3 + 1 from rfl, callFuel_succ, h0]
  have t : tryModels o modelsToTry 0 none =
      ⟨some (r, "gemini-2.5-flash"), 1, [], none⟩ := by
    show tryModels o ("gemini-2.5-flash" ::
      ["gemini-1.5-flash", "gemini-1.5-pro", "gemini-1.0-pro"]) 0 none = _
    rw [tryModels_cons, c1]
  unfold postOutcome
  rw [t]
  show (⟨200, true, "gemini-2.5-flash",
    validatedPlantInfo (parsePipeline (extractText r)) "gemini-2.5-flash"⟩ : PostResult) = _
  rw [ht]
  rfl

/-- Closed instance of C10 at a concrete candidate-free response. -/
theorem C10_defaults_on_empty_candidates_witness :
    postOutcome (fun _ => UpstreamResp.success ⟨none⟩) =
      ⟨200, true, PRIMARY_MODEL, defaultPlantRecord PRIMARY_MODEL⟩ :=
  C10_defaults_on_empty_candidates _ ⟨none⟩ rfl rfl

theorem onlyStrings_map_str (vs : List String) :
    onlyStrings (vs.map Json.str) = vs := by
  induction vs with
  | nil => rfl
  | cons v vs ih => simp [onlyStrings] at ih ⊢; exact ih

/-- Scenario B input: braces, bare keys, single-quoted values, trailing
comma. -/
def c4input : String :=
  "\x7bcommonName: " ++ String.mk [aposC] ++ "Aloe" ++ String.mk [aposC] ++
  ", scientificName: " ++ String.mk [aposC] ++ "Aloe vera" ++ String.mk [aposC] ++ ",\x7d"

/-- C4 counterexample: on the Scenario B input the repair pipeline does
not produce a parsed record at all (it throws), and the regex fallback
extracts nothing — in particular no record with commonName Aloe is
recovered. -/
theorem C4_counterexample :
    parseGeminiJsonResponse c4input = none ∧
    (parsePipeline c4input).commonName = none ∧
    (parsePipeline c4input).scientificName = none := by
  refine ⟨rfl, rfl, rfl⟩

/-- C4 amended: the code's only textual repairs on this input are the
trailing-comma removal (single quotes are not normalized and bare keys
are not quoted), so parsing fails; the regex fallback extracts an empty
record and the pipeline defaults commonName to Plant and scientificName
to Unknown species. -/
theorem C4_amended :
    rmCommaBracket (rmCommaBrace (stripFences c4input)) =
      "\x7bcommonName: " ++ String.mk [aposC] ++ "Aloe" ++ String.mk [aposC] ++
      ", scientificName: " ++ String.mk [aposC] ++ "Aloe vera" ++ String.mk [aposC] ++ "\x7d" ∧
    parseGeminiJsonResponse c4input = none ∧
    extractPlantInfoFromText c4input = ({} : PartialPlantInfo) ∧
    (∀ m, (validatedPlantInfo (parsePipeline c4input) m).commonName = "Plant" ∧
      (validatedPlantInfo (parsePipeline c4input) m).scientificName = "Unknown species") := by
  refine ⟨rfl, rfl, rfl, fun m => ⟨rfl, rfl⟩⟩

/-- The C5 counterexample input: a valid JSON object whose string value
contains a comma-space-brace sequence. -/
def c5input : String := "\x7b\"commonName\": \"a, \x7d\"\x7d"

/-- C5 counterexample: the input is already valid JSON, but the engine's
comma-cleanup rewrites inside the string value, so the recovered
commonName differs from the original value — the structure is not
recovered exactly. -/
theorem C5_counterexample :
    jsonParse c5input = some (Json.obj [("commonName", Json.str "a, \x7d")]) ∧
    (parseGeminiJsonResponse c5input).map (·.commonName) = some (some "a\x7d") ∧
    ("a\x7d" : String) ≠ "a, \x7d" := by
  refine ⟨rfl, rfl, by decide⟩

/-- C5 amended: for input text that is a brace-delimited JSON object on
which the cleaning substitutions (code-fence removal, trailing-comma
removal, trimming) act as the identity, the engine parses it directly
and recovers every recognised well-typed field exactly. -/
theorem C5_repair_identity (s : String) (flds : List (String × Json))
    (hb : braceMatch s = some s) (hf : stripFences s = s)
    (h1 : rmCommaBrace s = s) (h2 : rmCommaBracket s = s) (h3 : jsTrim s = s)
    (hp : jsonParse s = some (Json.obj flds)) :
    parseGeminiJsonResponse s = some (extractFields (Json.obj flds)) ∧
    (∀ v, lookupLast flds "commonName" = some (Json.str v) →
      (extractFields (Json.obj flds)).commonName = some v) ∧
    (∀ v, lookupLast flds "scientificName" = some (Json.str v) →
      (extractFields (Json.obj flds)).scientificName = some v) ∧
    (∀ v, lookupLast flds "family" = some (Json.str v) →
      (extractFields (Json.obj flds)).family = some v) ∧
    (∀ v, lookupLast flds "nativeRegion" = some (Json.str v) →
      (extractFields (Json.obj flds)).nativeRegion = some v) ∧
    (∀ v, lookupLast flds "identificationConfidence" = some (Json.str v) →
      (v = "High" ∨ v = "Medium" ∨ v = "Low") →
      (extractFields (Json.obj flds)).identificationConfidence = some v) ∧
    (∀ vs, lookupLast flds "interestingFacts" = some (Json.arr (vs.map Json.str)) →
      (extractFields (Json.obj flds)).interestingFacts = some vs) ∧
    (∀ vs, lookupLast flds "warnings" = some (Json.arr (vs.map Json.str)) →
      (extractFields (Json.obj flds)).warnings = some vs) ∧
    (∀ vs, lookupLast flds "similarPlants" = some (Json.arr (vs.map Json.str)) →
      (extractFields (Json.obj flds)).similarPlants = some vs) ∧
    (∀ vs, lookupLast flds "imageSearchTerms" = some (Json.arr (vs.map Json.str)) →
      (extractFields (Json.obj flds)).imageSearchTerms = some vs) ∧
    (∀ q, lookupLast flds "imageCount" = some (Json.num q) →
      (extractFields (Json.obj flds)).imageCount = some q) ∧
    (∀ g w, lookupLast flds "careRequirements" = some (Json.obj g) →
      lookupLast g "watering" = some (Json.str w) →
      (extractFields (Json.obj flds)).careRequirements.map (·.watering) = some w) ∧
    (∀ g w, lookupLast flds "careRequirements" = some (Json.obj g) →
      lookupLast g "sunlight" = some (Json.str w) →
      (extractFields (Json.obj flds)).careRequirements.map (·.sunlight) = some w) ∧
    (∀ g w, lookupLast flds "careRequirements" = some (Json.obj g) →
      lookupLast g "soil" = some (Json.str w) →
      (extractFields (Json.obj flds)).careRequirements.map (·.soil) = some w) ∧
    (∀ g w, lookupLast flds "careRequirements" = some (Json.obj g) →
      lookupLast g "temperature" = some (Json.str w) →
      (extractFields (Json.obj flds)).careRequirements.map (·.temperature) = some w) ∧
    (∀ g w, lookupLast flds "careRequirements" = some (Json.obj g) →
      lookupLast g "humidity" = some (Json.str w) →
      (extractFields (Json.obj flds)).careRequirements.map (·.humidity) = some w) ∧
    (∀ g w, lookupLast flds "careRequirements" = some (Json.obj g) →
      lookupLast g "fertilizing" = some (Json.str w) →
      (extractFields (Json.obj flds)).careRequirements.map (·.fertilizing) = some w) ∧
    (∀ g w, lookupLast flds "growthCharacteristics" = some (Json.obj g) →
      lookupLast g "size" = some (Json.str w) →
      (extractFields (Json.obj flds)).growthCharacteristics.map (·.size) = some w) ∧
    (∀ g w, lookupLast flds "growthCharacteristics" = some (Json.obj g) →
      lookupLast g "growthRate" = some (Json.str w) →
      (extractFields (Json.obj flds)).growthCharacteristics.map (·.growthRate) = some w) ∧
    (∀ g w, lookupLast flds "growthCharacteristics" = some (Json.obj g) →
      lookupLast g "lifespan" = some (Json.str w) →
      (extractFields (Json.obj flds)).growthCharacteristics.map (·.lifespan) = some w) := by
  constructor
  · unfold parseGeminiJsonResponse
    rw [hb]
    show (match jsonParse (jsTrim (rmCommaBracket (rmCommaBrace (stripFences s)))) with
      | some j => some (extractFields j)
      | none => none) = _
    rw [hf, h1, h2, h3, hp]
  refine ⟨?_, ?_, ?_, ?_, ?_, ?_, ?_, ?_, ?_, ?_, ?_, ?_, ?_, ?_, ?_, ?_, ?_, ?_, ?_⟩
  · intro v hv
    simp [extractFields, hv]
  · intro v hv
    simp [extractFields, hv]
  · intro v hv
    simp [extractFields, hv]
  · intro v hv
    simp [extractFields, hv]
  · intro v hv hval
    simp [extractFields, hv, hval]
  · intro vs hv
    simp [extractFields, hv, onlyStrings_map_str]
  · intro vs hv
    simp [extractFields, hv, onlyStrings_map_str]
  · intro vs hv
    simp [extractFields, hv, onlyStrings_map_str]
  · intro vs hv
    simp [extractFields, hv, onlyStrings_map_str]
  · intro q hv
    simp [extractFields, hv]
  · intro g w hg hw
    simp [extractFields, hg, strOr, hw]
  · intro g w hg hw
    simp [extractFields, hg, strOr, hw]
  · intro g w hg hw
    simp [extractFields, hg, strOr, hw]
  · intro g w hg hw
    simp [extractFields, hg, strOr, hw]
  · intro g w hg hw
    simp [extractFields, hg, strOr, hw]
  · intro g w hg hw
    simp [extractFields, hg, strOr, hw]
  · intro g w hg hw
    simp [extractFields, hg, strOr, hw]
  · intro g w hg hw
    simp [extractFields, hg, strOr, hw]
  · intro g w hg hw
    simp [extractFields, hg, strOr, hw]

/-- Closed instance of C5 amended at a concrete valid JSON object. -/
theorem C5_repair_identity_witness :
    parseGeminiJsonResponse "\x7b\"commonName\": \"Aloe\"\x7d" =
      some (extractFields (Json.obj [("commonName", Json.str "Aloe")])) ∧
    (extractFields (Json.obj [("commonName", Json.str "Aloe")])).commonName = some "Aloe" := by
  have h := C5_repair_identity "\x7b\"commonName\": \"Aloe\"\x7d"
    [("commonName", Json.str "Aloe")] rfl rfl rfl rfl rfl rfl
  exact ⟨h.1, h.2.1 "Aloe" rfl⟩

/-- A successful upstream response whose candidate text supplies a
single image search term. -/
def c8resp : GeminiApiResponse :=
  ⟨some [⟨some ⟨some [⟨some "\x7b\"imageSearchTerms\": [\"a\"]\x7d"⟩]⟩⟩]⟩

/-- C8 counterexample: a successful identification response (HTTP 200,
success true) whose imageSearchTerms has only one element — the
upstream-supplied list is passed through without enforcing the 3-to-5
bound. -/
theorem C8_counterexample :
    (postOutcome (fun _ => UpstreamResp.success c8resp)).status = 200 ∧
    (postOutcome (fun _ => UpstreamResp.success c8resp)).success = true ∧
    (postOutcome (fun _ => UpstreamResp.success c8resp)).data.imageSearchTerms = ["a"] ∧
    ¬ 3 ≤ (postOutcome (fun _ => UpstreamResp.success c8resp)).data.imageSearchTerms.length := by
  have h : (postOutcome (fun _ => UpstreamResp.success c8resp)).data.imageSearchTerms
      = ["a"] := rfl
  refine ⟨rfl, rfl, h, ?_⟩
  rw [h]
  decide

/-- C8 amended: an upstream-supplied nonempty imageSearchTerms list is
passed through unchanged, whatever its length; only when none is
supplied (or the filtered list is empty) are the terms derived
deterministically from the name, family and care fields, and those
derived terms always number between 3 and 5. -/
theorem C8_image_search_terms (p : PartialPlantInfo) (m : String) :
    (∀ ts, p.imageSearchTerms = some ts → ts ≠ [] →
      (validatedPlantInfo p m).imageSearchTerms = ts) ∧
    ((p.imageSearchTerms = none ∨ p.imageSearchTerms = some []) →
      (validatedPlantInfo p m).imageSearchTerms =
        generateImageSearchTerms (orDefault p.commonName "plant")
          p.scientificName p.family (p.careRequirements.map (·.sunlight)) ∧
      3 ≤ (validatedPlantInfo p m).imageSearchTerms.length ∧
      (validatedPlantInfo p m).imageSearchTerms.length ≤ 5) := by
  constructor
  · intro ts hts hne
    show (match p.imageSearchTerms with
      | some l =>
        if 0 < l.length then l
        else generateImageSearchTerms (orDefault p.commonName "plant")
          p.scientificName p.family (p.careRequirements.map (·.sunlight))
      | none => generateImageSearchTerms (orDefault p.commonName "plant")
          p.scientificName p.family (p.careRequirements.map (·.sunlight))) = ts
    rw [hts]
    have : 0 < ts.length := List.length_pos.mpr hne
    simp [this]
  · intro hcase
    have heq : (validatedPlantInfo p m).imageSearchTerms =
        generateImageSearchTerms (orDefault p.commonName "plant")
          p.scientificName p.family (p.careRequirements.map (·.sunlight)) := by
      rcases hcase with h | h <;> simp [validatedPlantInfo, h]
    refine ⟨heq, ?_, ?_⟩
    · rw [heq]
      exact (generateImageSearchTerms_length _ _ _ _).1
    · rw [heq]
      exact (generateImageSearchTerms_length _ _ _ _).2

/-- Closed instance of C8 amended: pass-through of a supplied list and
derived terms for the empty record. -/
theorem C8_image_search_terms_witness :
    (validatedPlantInfo { imageSearchTerms := some ["x", "y", "z"] } "m").imageSearchTerms
      = ["x", "y", "z"] ∧
    (validatedPlantInfo ({} : PartialPlantInfo) "m").imageSearchTerms =
      generateImageSearchTerms "plant" none none none := by
  constructor
  · exact (C8_image_search_terms { imageSearchTerms := some ["x", "y", "z"] } "m").1
      ["x", "y", "z"] rfl (by decide)
  · exact ((C8_image_search_terms ({} : PartialPlantInfo) "m").2 (Or.inl rfl)).1

/-- C9 counterexample: imageCount 0 is numeric, and clamping into [4, 8]
would give 4, but the code requires positivity and defaults to 6. -/
theorem C9_counterexample :
    (validatedPlantInfo { imageCount := some 0 } "m").imageCount = 6 ∧
    min (max (0 : Rat) 4) 8 = 4 ∧
    (6 : Rat) ≠ 4 := by
  refine ⟨rfl, by decide, by decide⟩

/-- C9 amended: a numeric and positive imageCount is clamped into
[4, 8]; a missing imageCount, or a numeric value that is not positive,
defaults to 6 (non-numeric values never reach the typed partial
record's imageCount field and likewise default). -/
theorem C9_image_count_clamp (p : PartialPlantInfo) (m : String) :
    (∀ q : Rat, p.imageCount = some q → 0 < q →
      (validatedPlantInfo p m).imageCount = min (max q 4) 8) ∧
    (p.imageCount = none → (validatedPlantInfo p m).imageCount = 6) ∧
    (∀ q : Rat, p.imageCount = some q → q ≤ 0 →
      (validatedPlantInfo p m).imageCount = 6) := by
  refine ⟨?_, ?_, ?_⟩
  · intro q hq hpos
    show (match p.imageCount with
      | some q => if 0 < q then min (max q 4) 8 else 6
      | none => 6) = _
    rw [hq]
    simp [hpos]
  · intro hq
    show (match p.imageCount with
      | some q => if 0 < q then min (max q 4) 8 else 6
      | none => 6) = _
    rw [hq]
  · intro q hq hnp
    show (match p.imageCount with
      | some q => if 0 < q then min (max q 4) 8 else 6
      | none => 6) = _
    rw [hq]
    simp [not_lt.mpr hnp]

/-- Closed instance of C9 amended at concrete counts. -/
theorem C9_image_count_clamp_witness :
    (validatedPlantInfo { imageCount := some 10 } "m").imageCount = min (max (10 : Rat) 4) 8 ∧
    (validatedPlantInfo ({} : PartialPlantInfo) "m").imageCount = 6 ∧
    (validatedPlantInfo { imageCount := some (-2) } "m").imageCount = 6 := by
  refine ⟨?_, ?_, ?_⟩
  · exact (C9_image_count_clamp { imageCount := some 10 } "m").1 10 rfl (by decide)
  · exact (C9_image_count_clamp ({} : PartialPlantInfo) "m").2.1 rfl
  · exact (C9_image_count_clamp { imageCount := some (-2) } "m").2.2 (-2) rfl (by decide)

/-- C3 counterexample: with a configured API key, a throwing photo
search yields HTTP 500 with success false and an empty image list — not
the configured count of placeholders (which would be 6 here), and the
error is surfaced to the caller. -/
theorem C3_counterexample :
    (imagesGET "rose" 6 1 (some "k") UnsplashFetch.throws).images = [] ∧
    (imagesGET "rose" 6 1 (some "k") UnsplashFetch.throws).status = 500 ∧
    (imagesGET "rose" 6 1 (some "k") UnsplashFetch.throws).success = false ∧
    ((List.range ((min (6 : Int) 6).toNat)).map (mockImage "rose")).length = 6 := by
  refine ⟨rfl, rfl, rfl, rfl⟩

/-- C3 amended: deterministic placeholders (index- and
query-parameterized, min(count, 6) of them) are returned exactly when
the photo-search API key is not configured; with a key configured, a
thrown or non-OK fetch is caught and surfaced as HTTP 500 with success
false and an empty list, and a successful fetch with zero results
returns success true with an empty list. -/
theorem C3_image_search_degradation (query : String) (count page : Int) (k : String) :
    (∀ f, imagesGET query count page none f =
      ⟨200, true, query, ((List.range (min count 6).toNat).map (mockImage query)).length,
        some page, (List.range (min count 6).toNat).map (mockImage query),
        some "Using mock images. Add UNSPLASH_API_KEY to .env.local for real images.",
        none⟩) ∧
    (imagesGET query count page (some k) UnsplashFetch.throws =
      ⟨500, false, query, 0, none, [], none, some "Failed to fetch images"⟩) ∧
    (∀ s, imagesGET query count page (some k) (UnsplashFetch.notOk s) =
      ⟨500, false, query, 0, none, [], none, some "Failed to fetch images"⟩) ∧
    (∀ t tp, imagesGET query count page (some k) (UnsplashFetch.ok [] t tp) =
      ⟨200, true, query, 0, some page, [], none, none⟩) := by
  exact ⟨fun f => rfl, rfl, fun s => rfl, fun t tp => rfl⟩
